import Mathlib

/-!
Shallow embedding of `device-rotation-test.js` (device-rotation-tester).

The program drives a headless browser through a rotating catalog of device
profiles against one URL: validate the CLI argument, then loop
(select profile by `iteration mod catalogLength`, run one single-visit
session, sleep an interruptible interval) until a shutdown signal or an
iteration cap.  External effects (browser launch, navigation, screenshot,
timers) are modelled by explicit outcome parameters; each definition mirrors
the corresponding JavaScript function.
-/

namespace DeviceRotation

/-- The `CONFIG` constant object of the source (all durations in ms). -/
structure Config where
  INTERVAL : Nat
  SDK_WAIT : Nat
  PAGE_LOAD_TIMEOUT : Nat
  MAX_ITERATIONS : Nat
  SCREENSHOT_DIR : String
  deriving Repr, DecidableEq

/-- `CONFIG` of `device-rotation-test.js` (the `SCREENSHOT_PREFIX` field,
the constant string `"screenshot"`, is inlined at its two use sites below). -/
def CONFIG : Config :=
  { INTERVAL := 60000
    SDK_WAIT := 20000
    PAGE_LOAD_TIMEOUT := 60000
    MAX_ITERATIONS := 1000
    SCREENSHOT_DIR := "screenshots" }

/-- The character class `[a-z0-9]` of the regex in `takeScreenshot` /
`takeErrorScreenshot`: characters kept by the slug. -/
def isSlugKeep (c : Char) : Bool :=
  (decide ('a' ≤ c) && decide (c ≤ 'z')) || (decide ('0' ≤ c) && decide (c ≤ '9'))

/-- `String.prototype.toLowerCase()`, per character (the profile names in the
catalog are ASCII, where JavaScript lowercasing is exactly per-character). -/
def jsToLowerCase (s : String) : String :=
  String.mk (s.data.map Char.toLower)

/-- The `safeName` computation of `takeScreenshot` and `takeErrorScreenshot`:
`profileName.toLowerCase().replace(/[^a-z0-9]/g, "-")` — every character
outside `[a-z0-9]` is replaced by a separator `-`, one per character. -/
def safeName (profileName : String) : String :=
  String.mk ((jsToLowerCase profileName).data.map
    (fun c => if isSlugKeep c then c else '-'))

/-- Definition following the SPEC's words (not the source), for comparison:
lowercase, then collapse every RUN of consecutive non-alphanumeric characters
to a single separator.  One fold step: keep an alphanumeric, emit one
separator `-` when entering a non-alphanumeric run, skip while inside a run. -/
def collapseStep (acc : List Char × Bool) (c : Char) : List Char × Bool :=
  if isSlugKeep c then (acc.1 ++ [c], false)
  else if acc.2 then acc
  else (acc.1 ++ ['-'], true)

/-- Spec-version slug (runs collapsed), to be compared with `safeName`. -/
def safeNameSpec (profileName : String) : String :=
  String.mk (((jsToLowerCase profileName).data.foldl collapseStep ([], false)).1)

/-- Whether a character list contains two adjacent `-` separators. -/
def hasAdjacentSep : List Char → Bool
  | c :: d :: rest => (c = '-' && d = '-') || hasAdjacentSep (d :: rest)
  | _ => false

/-- `(l.map f).getD i d = f (l.getD i d)` when `i` is in range. -/
theorem getD_map_of_lt (f : Char → Char) (l : List Char) (d : Char) :
    ∀ i : Nat, i < l.length → (l.map f).getD i d = f (l.getD i d) := by
  induction l with
  | nil => intro i h; exact absurd h (by simp)
  | cons a as ih =>
    intro i h
    cases i with
    | zero => rfl
    | succ j =>
      have hj : j < as.length := by simpa using h
      simpa using ih j hj

/-- C1 counterexample: for the catalog name `iPad (gen 7)` the code's slug is
`ipad--gen-7-`, which contains two adjacent separators (the run `" ("` maps to
`"--"`), so runs of non-alphanumerics are NOT collapsed to a single separator,
and the code's slug differs from the spec's collapsed slug `ipad-gen-7-`. -/
theorem C1_runs_not_collapsed :
    safeName "iPad (gen 7)" = "ipad--gen-7-" ∧
    hasAdjacentSep (safeName "iPad (gen 7)").data = true ∧
    safeNameSpec "iPad (gen 7)" = "ipad-gen-7-" ∧
    safeName "iPad (gen 7)" ≠ safeNameSpec "iPad (gen 7)" := by
  refine ⟨by decide, by decide, by decide, by decide⟩

/-- C1 (amended): the slugified profile-name component is the name lowercased
with EACH non-alphanumeric character replaced by a single separator,
one-for-one (so the slug has the same length as the name, and position `i`
holds the separator `-` exactly when the lowercased character at `i` is outside
`[a-z0-9]`; a run of `k` non-alphanumerics yields `k` adjacent separators). -/
theorem C1_slug_per_char (name : String) :
    (safeName name).length = name.length ∧
    ∀ i : Nat, i < name.length →
      (safeName name).data.getD i 'X' =
        (if isSlugKeep (Char.toLower (name.data.getD i 'X'))
         then Char.toLower (name.data.getD i 'X') else '-') := by
  constructor
  · show ((jsToLowerCase name).data.map
        (fun c => if isSlugKeep c then c else '-')).length = name.data.length
    simp [jsToLowerCase]
  · intro i h
    have hlen : i < name.data.length := h
    have h2 : i < (name.data.map Char.toLower).length := by simpa using hlen
    have e1 : (safeName name).data =
        (name.data.map Char.toLower).map (fun c => if isSlugKeep c then c else '-') := by
      simp [safeName, jsToLowerCase]
    rw [e1, getD_map_of_lt _ _ _ i h2, getD_map_of_lt _ _ _ i hlen]

/-- C1 witness: the amended per-character law evaluated on the catalog name
`iPad (gen 7)` at position 4 (the space), which maps to a separator. -/
theorem C1_slug_per_char_witness :
    (safeName "iPad (gen 7)").length = ("iPad (gen 7)" : String).length ∧
    (safeName "iPad (gen 7)").data.getD 4 'X' =
      (if isSlugKeep (Char.toLower (("iPad (gen 7)" : String).data.getD 4 'X'))
       then Char.toLower (("iPad (gen 7)" : String).data.getD 4 'X') else '-') :=
  ⟨(C1_slug_per_char "iPad (gen 7)").1,
   (C1_slug_per_char "iPad (gen 7)").2 4 (by decide)⟩

/-- POSIX `path.join` for one directory level, as used for screenshot paths. -/
def pathJoin (dir file : String) : String := dir ++ "/" ++ file

/-- `new Date().toISOString().replace(/[:.]/g, "-")` of `takeScreenshot`. -/
def timestampSlug (iso : String) : String :=
  String.mk (iso.data.map (fun c => if c = ':' || c = '.' then '-' else c))

/-- Outcome of `page.goto(url, ...)` in `loadPage`: a response object with a
status and statusText, a null response, a thrown error whose `name` is
`TimeoutError`, or any other thrown error (with its message). -/
inductive GotoResult where
  | response (status : Nat) (statusText : String)
  | noResponse
  | timeoutError
  | failure (msg : String)
  deriving Repr, DecidableEq

/-- `DeviceTester.loadPage`, given the goto outcome and the current
`testResults.httpStatus`; returns the updated `httpStatus` and the error it
re-raises, if any.  Mirrors the source: a non-null response records its
status BEFORE the `status >= 400` check throws `HTTP <status> - <statusText>`;
a thrown `TimeoutError` is caught and swallowed (logged only); any other
thrown error is re-raised. -/
def loadPage (goto : GotoResult) (httpStatus : Nat) : Nat × Option String :=
  match goto with
  | .response s txt =>
      if 400 ≤ s then (s, some ("HTTP " ++ toString s ++ " - " ++ txt))
      else (s, none)
  | .noResponse => (httpStatus, none)
  | .timeoutError => (httpStatus, none)
  | .failure msg => (httpStatus, some msg)

/-- Outcomes of the external (browser/filesystem/timer) operations one
`DeviceTester.test()` run performs, in program order.  `Option String` fields
are `some msg` when the operation throws with message `msg`, `none` when it
succeeds; `Bool` fields are `true` when the operation succeeds. -/
structure Env where
  ensureDir : Option String
  launch : Option String
  newContext : Option String
  newPage : Option String
  goto : GotoResult
  settleWait : Option String
  screenshotOk : Bool
  pageInfoOk : Bool
  errorScreenshotOk : Bool
  deriving Repr, DecidableEq

/-- The `testResults` object of a `DeviceTester` plus the screenshot path. -/
structure SessionResult where
  status : String
  error : Option String
  screenshotTaken : Bool
  httpStatus : Nat
  screenshotPath : Option String
  deriving Repr, DecidableEq

/-- Initial `testResults` set in the `DeviceTester` constructor. -/
def initialResult : SessionResult :=
  { status := "unknown", error := none, screenshotTaken := false,
    httpStatus := 0, screenshotPath := none }

/-- Observable outcome of one `DeviceTester.test()` run: the final
`testResults`, the boolean `test()` returns, and which stages were reached. -/
structure SessionObs where
  result : SessionResult
  returnValue : Bool
  pageCreated : Bool
  settleReached : Bool
  captureReached : Bool
  infoReached : Bool
  errorShotPath : Option String
  cleanupRan : Bool
  deriving Repr, DecidableEq

/-- `DeviceTester.takeScreenshot`: on success sets `screenshotTaken` and
`screenshotPath` (prefix, timestamp slug, profile-name slug); on failure the
error is caught and logged and `testResults` is left unchanged. -/
def takeScreenshot (e : Env) (profileName nowIso : String)
    (r : SessionResult) : SessionResult :=
  if e.screenshotOk then
    { r with screenshotTaken := true,
             screenshotPath := some (pathJoin CONFIG.SCREENSHOT_DIR
               ("screenshot-" ++ timestampSlug nowIso ++ "-"
                 ++ safeName profileName ++ ".png")) }
  else r

/-- `DeviceTester.collectPageInfo`: reads title and URL and logs them; every
error is caught and logged inside; `testResults` is never touched. -/
def collectPageInfo (_e : Env) (r : SessionResult) : SessionResult := r

/-- `DeviceTester.takeErrorScreenshot`: returns immediately (`none`) when the
session has no page; otherwise attempts a screenshot to the fixed per-profile
error filename and returns the attempted path (a failure of the screenshot
call itself is caught and logged). -/
def takeErrorScreenshot (pageExists : Bool) (profileName : String) :
    Option String :=
  if pageExists then
    some (pathJoin CONFIG.SCREENSHOT_DIR
      ("error-screenshot-" ++ safeName profileName ++ ".png"))
  else none

/-- The `catch` block of `DeviceTester.test()`: set `status` to "error" and
`error = message`, attempt the error screenshot (a no-op without a page),
return `false`; the `finally` block runs cleanup. -/
def onTestError (r : SessionResult) (pageCreated settleR captureR infoR : Bool)
    (profileName msg : String) : SessionObs :=
  { result := { r with status := "error", error := some msg },
    returnValue := false, pageCreated := pageCreated,
    settleReached := settleR, captureReached := captureR, infoReached := infoR,
    errorShotPath := takeErrorScreenshot pageCreated profileName,
    cleanupRan := true }

/-- `DeviceTester.test()`: ensure directory, launch browser, create context,
create page (observers attached are log-only), load page, settle wait
(`CONFIG.SDK_WAIT`), screenshot, collect info, `status` set to "success"; any
thrown error goes to `onTestError`; cleanup always runs (`finally`). -/
def test (e : Env) (profileName nowIso : String) : SessionObs :=
  match e.ensureDir with
  | some m => onTestError initialResult false false false false profileName m
  | none =>
  match e.launch with
  | some m => onTestError initialResult false false false false profileName m
  | none =>
  match e.newContext with
  | some m => onTestError initialResult false false false false profileName m
  | none =>
  match e.newPage with
  | some m => onTestError initialResult false false false false profileName m
  | none =>
  match loadPage e.goto initialResult.httpStatus with
  | (hs, some m) =>
      onTestError { initialResult with httpStatus := hs } true false false false
        profileName m
  | (hs, none) =>
  let r1 : SessionResult := { initialResult with httpStatus := hs }
  match e.settleWait with
  | some m => onTestError r1 true true false false profileName m
  | none =>
  let r2 := collectPageInfo e (takeScreenshot e profileName nowIso r1)
  { result := { r2 with status := "success" },
    returnValue := true, pageCreated := true,
    settleReached := true, captureReached := true, infoReached := true,
    errorShotPath := none, cleanupRan := true }

/-- C2: navigation completing with an HTTP status ≥ 400 (all earlier stages
succeeding) classifies the session as error, records that status in
`httpStatus`, and attempts an error screenshot (the page exists, so
`takeErrorScreenshot` does not return early). -/
theorem C2_http_error_classifies (e : Env) (p t txt : String) (s : Nat)
    (hgoto : e.goto = .response s txt) (hs : 400 ≤ s)
    (hdir : e.ensureDir = none) (hl : e.launch = none)
    (hc : e.newContext = none) (hp : e.newPage = none) :
    (test e p t).result.status = "error" ∧
    (test e p t).result.httpStatus = s ∧
    (test e p t).errorShotPath ≠ none := by
  unfold test
  rw [hdir, hl, hc, hp, hgoto]
  simp only [loadPage, if_pos hs]
  simp [onTestError, takeErrorScreenshot]

/-- C2 witness: a concrete session whose navigation returns HTTP 404. -/
theorem C2_http_error_classifies_witness :
    (test { ensureDir := none, launch := none, newContext := none,
            newPage := none, goto := .response 404 "Not Found",
            settleWait := none, screenshotOk := true, pageInfoOk := true,
            errorScreenshotOk := true }
       "Pixel 6" "2026-10-11T00:00:00.000Z").result.status = "error" ∧
    (test { ensureDir := none, launch := none, newContext := none,
            newPage := none, goto := .response 404 "Not Found",
            settleWait := none, screenshotOk := true, pageInfoOk := true,
            errorScreenshotOk := true }
       "Pixel 6" "2026-10-11T00:00:00.000Z").result.httpStatus = 404 ∧
    (test { ensureDir := none, launch := none, newContext := none,
            newPage := none, goto := .response 404 "Not Found",
            settleWait := none, screenshotOk := true, pageInfoOk := true,
            errorScreenshotOk := true }
       "Pixel 6" "2026-10-11T00:00:00.000Z").errorShotPath ≠ none :=
  C2_http_error_classifies _ "Pixel 6" "2026-10-11T00:00:00.000Z" "Not Found"
    404 rfl (by decide) rfl rfl rfl rfl

/-- C3: a navigation timeout is swallowed: with every other stage succeeding
the session still reaches the settle wait, the capture stage and the
info-collection stage, and classifies as success (whatever the screenshot and
info-collection outcomes are). -/
theorem C3_timeout_swallowed (e : Env) (p t : String)
    (hgoto : e.goto = .timeoutError)
    (hdir : e.ensureDir = none) (hl : e.launch = none)
    (hc : e.newContext = none) (hp : e.newPage = none)
    (hw : e.settleWait = none) :
    (test e p t).settleReached = true ∧
    (test e p t).captureReached = true ∧
    (test e p t).infoReached = true ∧
    (test e p t).result.status = "success" ∧
    (test e p t).returnValue = true := by
  unfold test
  rw [hdir, hl, hc, hp, hgoto, hw]
  cases hsc : e.screenshotOk <;>
    simp [loadPage, collectPageInfo, takeScreenshot, hsc]

/-- C3 witness: a concrete session whose navigation times out and whose
screenshot also fails, still classifying as success. -/
theorem C3_timeout_swallowed_witness :
    (test { ensureDir := none, launch := none, newContext := none,
            newPage := none, goto := .timeoutError, settleWait := none,
            screenshotOk := false, pageInfoOk := false,
            errorScreenshotOk := true }
       "Galaxy S23" "2026-10-11T00:00:00.000Z").result.status = "success" :=
  (C3_timeout_swallowed _ "Galaxy S23" "2026-10-11T00:00:00.000Z"
    rfl rfl rfl rfl rfl rfl).2.2.2.1

/-- C7: the session's success/error classification and the boolean `test()`
returns are independent of whether the screenshot capture and the
title/URL info collection succeed or fail: both steps catch their own
errors internally and only log them. -/
theorem C7_capture_info_no_effect (e : Env) (p t : String) (b b' : Bool) :
    (test { e with screenshotOk := b, pageInfoOk := b' } p t).result.status =
      (test e p t).result.status ∧
    (test { e with screenshotOk := b, pageInfoOk := b' } p t).returnValue =
      (test e p t).returnValue := by
  obtain ⟨d, l, c, pg, g, w, sc, pi, es⟩ := e
  cases d <;> cases l <;> cases c <;> cases pg <;> cases w <;>
    cases g <;>
      simp [test, loadPage, onTestError, collectPageInfo, takeScreenshot] <;>
        split <;> cases b <;> cases sc <;> simp

/-- C4/C10 helper and C4 model: the resource handles of a `DeviceTester` as
seen by `cleanup` (which of page/context/browser were created, whether the
page is already closed, and the `cleanupCalled` guard flag). -/
structure TesterHandles where
  pageSet : Bool
  pageClosed : Bool
  contextSet : Bool
  browserSet : Bool
  cleanupCalled : Bool
  deriving Repr, DecidableEq

/-- Which close operations one `cleanup()` invocation schedules. -/
structure CloseWork where
  closePage : Bool
  closeContext : Bool
  closeBrowser : Bool
  deriving Repr, DecidableEq

/-- No close operation scheduled. -/
def noCloseWork : CloseWork :=
  { closePage := false, closeContext := false, closeBrowser := false }

/-- `DeviceTester.cleanup`: returns immediately when `cleanupCalled` is
already set; otherwise sets the flag first, then schedules a close for the
page (when set and not already closed), the context and the browser
independently (each close's failure is caught and logged, so one failure
never prevents the others; `Promise.allSettled` awaits them all). -/
def cleanup (s : TesterHandles) : TesterHandles × CloseWork :=
  if s.cleanupCalled then (s, noCloseWork)
  else
    ({ s with cleanupCalled := true },
     { closePage := s.pageSet && !s.pageClosed,
       closeContext := s.contextSet,
       closeBrowser := s.browserSet })

/-- C4: cleanup is idempotent: after one invocation (from any path — the
session's own `finally` block or the shutdown handler), a second invocation
schedules no close work at all and leaves the handles unchanged, so the
closing work happens at most once per session. -/
theorem C4_cleanup_idempotent (s : TesterHandles) :
    (cleanup (cleanup s).1).2 = noCloseWork ∧
    (cleanup (cleanup s).1).1 = (cleanup s).1 := by
  unfold cleanup
  split <;> simp

/-- C10: an error screenshot is attempted exactly when the aborted session
had already created its page: `test` never attempts one when the failure
happened at directory creation, browser launch or context creation (the page
object does not exist and `takeErrorScreenshot` returns immediately), and
`takeErrorScreenshot` without a page is a no-op. -/
theorem C10_no_error_shot_before_page (e : Env) (p t : String) :
    (takeErrorScreenshot false p = none) ∧
    ((test e p t).errorShotPath ≠ none → (test e p t).pageCreated = true) ∧
    ((e.ensureDir ≠ none ∨ e.launch ≠ none ∨ e.newContext ≠ none ∨
        e.newPage ≠ none) →
      (test e p t).errorShotPath = none ∧
      (test e p t).pageCreated = false) := by
  obtain ⟨d, l, c, pg, g, w, sc, pi, es⟩ := e
  refine ⟨rfl, ?_, ?_⟩ <;>
    cases d <;> cases l <;> cases c <;> cases pg <;> cases w <;>
      cases g <;>
        simp [test, loadPage, onTestError, takeErrorScreenshot,
          collectPageInfo, takeScreenshot] <;>
          split <;> simp

/-- C10 witness: a concrete session whose browser launch fails attempts no
error screenshot. -/
theorem C10_no_error_shot_before_page_witness :
    (test { ensureDir := none, launch := some "browserType.launch failed",
            newContext := none, newPage := none, goto := .noResponse,
            settleWait := none, screenshotOk := true, pageInfoOk := true,
            errorScreenshotOk := true }
       "iPhone 15 Pro" "2026-10-11T00:00:00.000Z").errorShotPath = none ∧
    (test { ensureDir := none, launch := some "browserType.launch failed",
            newContext := none, newPage := none, goto := .noResponse,
            settleWait := none, screenshotOk := true, pageInfoOk := true,
            errorScreenshotOk := true }
       "iPhone 15 Pro" "2026-10-11T00:00:00.000Z").pageCreated = false :=
  (C10_no_error_shot_before_page _ "iPhone 15 Pro"
      "2026-10-11T00:00:00.000Z").2.2
    (Or.inr (Or.inl (by decide)))

/-- One entry of the device catalog.  Each catalog entry also spreads fields
(viewport, userAgent, deviceScaleFactor, isMobile, hasTouch) from the external
playwright `devices` registry, which lives outside this repository; the
fields written in this repository are `name` and `category` (the one fully
in-repo entry, Desktop Chrome, adds explicit emulation fields that no claim
depends on). -/
structure DeviceProfile where
  name : String
  category : String
  deriving Repr, DecidableEq

/-- The `DEVICE_PROFILES` catalog, in source order. -/
def DEVICE_PROFILES : List DeviceProfile :=
  [ { name := "iPhone 15 Pro", category := "mobile" },
    { name := "Pixel 6", category := "mobile" },
    { name := "iPad (gen 7)", category := "tablet" },
    { name := "Desktop Chrome", category := "desktop" },
    { name := "Galaxy S23", category := "mobile" } ]

/-- `iteration % DEVICE_PROFILES.length` of the rotation loop in `runTests`. -/
def profileIndex (iteration : Nat) : Nat :=
  iteration % DEVICE_PROFILES.length

/-- `DEVICE_PROFILES[profileIndex]` of the rotation loop (the index is always
in range since the catalog is non-empty). -/
def selectProfile (iteration : Nat) : DeviceProfile :=
  DEVICE_PROFILES.getD (profileIndex iteration) { name := "", category := "" }

/-- C5: the rotation loop selects the profile at catalog index
`i mod length`, and over any window of `length` consecutive iterations every
profile of the catalog is selected exactly once. -/
theorem C5_round_robin (i : Nat) :
    selectProfile i =
      DEVICE_PROFILES.getD (i % DEVICE_PROFILES.length)
        { name := "", category := "" } ∧
    ∀ p ∈ DEVICE_PROFILES,
      ((List.range DEVICE_PROFILES.length).map
        (fun k => selectProfile (i + k))).count p = 1 := by
  refine ⟨rfl, ?_⟩
  intro p hp
  have hmap : (List.range DEVICE_PROFILES.length).map
        (fun k => selectProfile (i + k)) =
      (List.range DEVICE_PROFILES.length).map
        (fun k => selectProfile (i % 5 + k)) := by
    refine List.map_congr_left ?_
    intro k _
    unfold selectProfile profileIndex
    have hmod : (i + k) % DEVICE_PROFILES.length =
        (i % 5 + k) % DEVICE_PROFILES.length := by
      show (i + k) % 5 = (i % 5 + k) % 5
      omega
    rw [hmod]
  rw [hmap]
  have hcase : i % 5 = 0 ∨ i % 5 = 1 ∨ i % 5 = 2 ∨ i % 5 = 3 ∨ i % 5 = 4 := by
    omega
  fin_cases hp <;>
    rcases hcase with h | h | h | h | h <;> rw [h] <;> decide

/-- C5 witness: at iteration 7 the window of 5 iterations starting there
selects the tablet profile `iPad (gen 7)` exactly once. -/
theorem C5_round_robin_witness :
    DeviceProfile.mk "iPad (gen 7)" "tablet" ∈ DEVICE_PROFILES ∧
    ((List.range DEVICE_PROFILES.length).map
      (fun k => selectProfile (7 + k))).count
        (DeviceProfile.mk "iPad (gen 7)" "tablet") = 1 :=
  ⟨by decide,
   (C5_round_robin 7).2 (DeviceProfile.mk "iPad (gen 7)" "tablet") (by decide)⟩

/-- Result of `validateArguments`: `exit1` models `process.exit(1)` (reached
before any browser activity), `ok url` models returning the URL. -/
inductive ArgResult where
  | exit1
  | ok (url : String)
  deriving Repr, DecidableEq

/-- `String.prototype.startsWith(searchString)` of JavaScript: whether the
string begins with the given search string (character-wise prefix check,
executable so concrete URLs evaluate). -/
def jsStartsWith (s search : String) : Bool :=
  search.data.isPrefixOf s.data

/-- `validateArguments` of the source, on `process.argv[2]` (`none` when the
argument is absent).  JavaScript `!url` is true for `undefined` and for the
empty string, so both hit the missing-URL exit; a present non-empty argument
not starting with `http://` or `https://` hits the scheme exit; otherwise the
URL is returned unchanged. -/
def validateArguments (argv2 : Option String) : ArgResult :=
  match argv2 with
  | none => .exit1
  | some url =>
    if url = "" then .exit1
    else if !jsStartsWith url "http://" && !jsStartsWith url "https://" then
      .exit1
    else .ok url

/-- C6: validation succeeds, returning the argument unchanged, exactly when
the argument is present and begins with `http://` or `https://`; in every
other case (missing argument, or wrong scheme) it exits with code 1 before
any browser activity. -/
theorem C6_validate_iff (argv2 : Option String) (url : String) :
    validateArguments argv2 = .ok url ↔
      (argv2 = some url ∧
        (jsStartsWith url "http://" = true ∨
          jsStartsWith url "https://" = true)) := by
  cases argv2 with
  | none => simp [validateArguments]
  | some s =>
    constructor
    · intro h
      simp only [validateArguments] at h
      by_cases hse : s = ""
      · rw [if_pos hse] at h; exact absurd h (by simp)
      · rw [if_neg hse] at h
        by_cases hsw : (!jsStartsWith s "http://" &&
            !jsStartsWith s "https://") = true
        · rw [if_pos hsw] at h; exact absurd h (by simp)
        · rw [if_neg hsw] at h
          obtain rfl : s = url := ArgResult.ok.inj h
          refine ⟨rfl, ?_⟩
          cases h1 : jsStartsWith s "http://" with
          | true => exact Or.inl rfl
          | false =>
            cases h2 : jsStartsWith s "https://" with
            | true => exact Or.inr rfl
            | false => rw [h1, h2] at hsw; exact absurd rfl hsw
    · rintro ⟨heq, hsw⟩
      obtain rfl : s = url := Option.some.inj heq
      have hse : s ≠ "" := by
        rintro rfl
        rcases hsw with hsw | hsw <;> exact absurd hsw (by decide)
      have hguard : (!jsStartsWith s "http://" &&
          !jsStartsWith s "https://") = false := by
        rcases hsw with hsw | hsw <;> rw [hsw] <;> simp
      simp only [validateArguments]
      rw [if_neg hse, hguard]
      rfl

/-- C6 witness: a concrete well-formed argument is returned unchanged. -/
theorem C6_validate_iff_witness :
    validateArguments (some "https://example.com") = .ok "https://example.com" :=
  (C6_validate_iff (some "https://example.com") "https://example.com").2
    ⟨rfl, Or.inr (by decide)⟩

/-- The `setInterval` period of `sleep` (1 second): the granularity at which
the inter-visit wait polls the shutdown flag. -/
def POLL_MS : Nat := 1000

/-- First poll tick (a positive multiple of `POLL_MS`) at or after time `T`:
the earliest interval callback that can observe a flag set at time `T`. -/
def firstPollAtOrAfter (T : Nat) : Nat :=
  max POLL_MS (POLL_MS * ((T + (POLL_MS - 1)) / POLL_MS))

/-- Observable outcome of one `sleep(ms)` call. -/
structure SleepRun where
  resolveAt : Nat
  resolvedByFlag : Bool
  intervalCleared : Bool
  deriving Repr, DecidableEq

/-- The `sleep` function of the source, in discrete time measured from the
call.  `flagAt = some T` means `isShuttingDown` becomes true at time `T`
(and stays true); `none` means it never does during this process run.
The promise resolves either when the `setTimeout` fires at `ms`, or at the
first `setInterval` tick (every `POLL_MS`) that observes the flag set —
whichever comes first.  The interval callback clears both timers only when it
observes the flag set; when the flag is never set, the interval is NEVER
cleared (the timeout path does not clear it), so it stays live after the
promise resolves. -/
def sleep (ms : Nat) (flagAt : Option Nat) : SleepRun :=
  match flagAt with
  | none =>
      { resolveAt := ms, resolvedByFlag := false, intervalCleared := false }
  | some T =>
      if firstPollAtOrAfter T < ms then
        { resolveAt := firstPollAtOrAfter T, resolvedByFlag := true,
          intervalCleared := true }
      else
        { resolveAt := ms, resolvedByFlag := false, intervalCleared := true }

/-- Unfolding equation for `sleep` with the flag set at time `T`. -/
theorem sleep_some_resolveAt (ms T : Nat) :
    (sleep ms (some T)).resolveAt =
      if firstPollAtOrAfter T < ms then firstPollAtOrAfter T else ms := by
  show (if firstPollAtOrAfter T < ms then
      ({ resolveAt := firstPollAtOrAfter T, resolvedByFlag := true,
         intervalCleared := true } : SleepRun)
    else
      { resolveAt := ms, resolvedByFlag := false,
        intervalCleared := true }).resolveAt =
    if firstPollAtOrAfter T < ms then firstPollAtOrAfter T else ms
  split <;> rfl

/-- C8: the inter-visit wait polls the shutdown flag every `POLL_MS = 1000`
ms and resolves without error no later than one polling granularity after the
flag becomes set (and never later than the full interval); in particular,
when the flag is set more than one granularity before the interval would
elapse, the wait returns strictly early.  Without the flag it waits out the
full interval. -/
theorem C8_sleep_interruptible (ms T : Nat) :
    POLL_MS = 1000 ∧
    (sleep ms (some T)).resolveAt ≤ ms ∧
    (sleep ms (some T)).resolveAt ≤ T + POLL_MS ∧
    (T + POLL_MS < ms → (sleep ms (some T)).resolveAt < ms) ∧
    (sleep ms none).resolveAt = ms := by
  have htick : firstPollAtOrAfter T ≤ T + POLL_MS := by
    unfold firstPollAtOrAfter POLL_MS
    have hdiv := Nat.div_mul_le_self (T + 999) 1000
    have : 1000 * ((T + 999) / 1000) ≤ T + 999 := by
      rw [Nat.mul_comm]; exact hdiv
    omega
  refine ⟨rfl, ?_, ?_, ?_, rfl⟩
  · rw [sleep_some_resolveAt]; split <;> omega
  · rw [sleep_some_resolveAt]; split <;> omega
  · intro hlt; rw [sleep_some_resolveAt]; split <;> omega

/-- C8 witness: with the loop interval of 60 s and the flag set 5 s into the
wait, the wait resolves by 6 s, strictly before the full interval. -/
theorem C8_sleep_interruptible_witness :
    (sleep CONFIG.INTERVAL (some 5000)).resolveAt ≤ 5000 + POLL_MS ∧
    (sleep CONFIG.INTERVAL (some 5000)).resolveAt < CONFIG.INTERVAL :=
  ⟨(C8_sleep_interruptible CONFIG.INTERVAL 5000).2.2.1,
   (C8_sleep_interruptible CONFIG.INTERVAL 5000).2.2.2.1 (by decide)⟩

/-- Number of inter-visit sleeps a run performs when it reaches the iteration
cap with the shutdown flag never set: the loop body runs for iterations
`0 .. cap-1` and sleeps after each except the last (`iteration <
MAX_ITERATIONS` fails after the final increment). -/
def naturalRunSleepCount : Nat := CONFIG.MAX_ITERATIONS - 1

/-- Live (never-cleared) 1-second polling intervals left behind after a run
completes naturally: one per inter-visit sleep whose interval was never
cleared.  A Node.js process only exits on its own once no live timers remain,
so a positive count here means natural completion never reaches the
documented exit. -/
def liveIntervalsAfterNaturalRun : Nat :=
  if (sleep CONFIG.INTERVAL none).intervalCleared then 0
  else naturalRunSleepCount

/-- C9 (failing path evaluated): on a run that reaches the iteration cap with
no shutdown signal, every one of the 999 inter-visit sleeps resolves only by
its `setTimeout` and never clears its 1-second polling `setInterval`, so 999
live intervals keep the event loop alive and the process does not exit with
code 0 on natural completion as the claim states. -/
theorem C9_natural_completion_interval_leak :
    (sleep CONFIG.INTERVAL none).intervalCleared = false ∧
    (sleep CONFIG.INTERVAL none).resolveAt = CONFIG.INTERVAL ∧
    liveIntervalsAfterNaturalRun = 999 := by
  refine ⟨rfl, rfl, ?_⟩
  decide

end DeviceRotation
